import Mathlib

set_option autoImplicit false

/-!
Verification of the relevance-scoring engine of the
Persona-Driven-Document-Intelligence repository.

The development shallowly embeds `src/relevance_scorer.py` and
`src/persona_analyzer.py` (plus the data model of
`src/document_processor.py`) into Lean:

* Python `str` is Lean `String` (a structure holding a `List Char`);
  `str.lower`, `str.strip`, `str.split()`, substring tests (`in`) and
  `re.split` on a character class are modelled character by character.
* Python float scores are modelled as real numbers.
* Python `set` of strings is `Finset String`.
* The TF-IDF cosine-similarity component (external `sklearn` code) is an
  abstract parameter `semantic : Nat → ℝ` of `score_sections`, giving the
  semantic score of the section at each worklist index; the documented
  try/except degradation corresponds to passing `fun i => 0`.
* Regular-expression searches of `persona_analyzer.py` that go through
  Python's `re` engine with non-trivial patterns are abstracted as a
  `RegexOracle`; the purely substring-based extractors (skill level,
  deliverable type, domain keyword scan, success criteria, keyword
  tokenization) are embedded exactly.
-/

/-- Python `str.lower()` (ASCII case mapping). -/
def lower (s : String) : String := ⟨s.data.map Char.toLower⟩

/-- Python substring test `need in hay` on strings. -/
def containsSub (hay need : String) : Bool :=
  (List.range (hay.data.length + 1)).any (fun i => need.data.isPrefixOf (hay.data.drop i))

/-- Number of (possibly overlapping) positions at which `need` occurs as a
substring of `hay`: the "count every occurrence" reading of keyword counting. -/
def countOccs (hay need : String) : Nat :=
  ((List.range (hay.data.length + 1)).filter
    (fun i => need.data.isPrefixOf (hay.data.drop i))).length

/-- Tokenizer behind Python `str.split()` (no argument): maximal runs of
non-whitespace characters, in order, with no empty tokens.  `acc` holds the
characters of the current token, reversed. -/
def wordRunsAux (acc : List Char) : List Char → List (List Char)
  | [] => if acc.isEmpty then [] else [acc.reverse]
  | c :: cs =>
    if c.isWhitespace then
      if acc.isEmpty then wordRunsAux [] cs else acc.reverse :: wordRunsAux [] cs
    else wordRunsAux (c :: acc) cs

/-- Python `str.split()` (split on whitespace runs, dropping empty fields). -/
def pySplit (s : String) : List String := (wordRunsAux [] s.data).map (fun l => ⟨l⟩)

/-- Python `str.strip()`: drop leading and trailing whitespace. -/
def pyStrip (s : String) : String :=
  ⟨((s.data.dropWhile Char.isWhitespace).reverse.dropWhile Char.isWhitespace).reverse⟩

/-- Python `s.split(sep)` for a single-character class: cut at every character
satisfying `p`, keeping empty fields (so the result is never `[]`). -/
def splitChars (p : Char → Bool) : List Char → List (List Char)
  | [] => [[]]
  | c :: cs =>
    if p c then [] :: splitChars p cs
    else
      match splitChars p cs with
      | [] => [[c]]
      | t :: ts => (c :: t) :: ts

/-- `re.split` on a one-or-more character-class pattern (such as `[.!?]+`):
split at maximal runs of characters satisfying `p`.  Equivalently, do the
single-character split and drop the empty fields that arise strictly between
two adjacent separator characters (the boundary fields, empty or not, stay). -/
def reSplitRuns (p : Char → Bool) (s : String) : List String :=
  match (splitChars p s.data).map (fun l => (⟨l⟩ : String)) with
  | [] => []
  | [t] => [t]
  | t :: rest => t :: ((rest.dropLast.filter (fun x => x ≠ "")) ++ [rest.getLastD ""])

/-- Python `s.replace(' ', '_')`. -/
def underscore (s : String) : String :=
  ⟨s.data.map (fun c => if c = ' ' then '_' else c)⟩

/-- `re.sub(r'\s+', ' ', s).strip()` as used on refined excerpts: collapse every
whitespace run to a single space and trim; equivalently, rejoin the
whitespace-separated words of `s` with single spaces. -/
def collapseAndStrip (s : String) : String := String.intercalate " " (pySplit s)

/-- Characters counted as regex word characters (`\w`, ASCII). -/
def isWordChar (c : Char) : Bool := c.isAlpha || c.isDigit || c = '_'

/-- `re.findall(r'\b[a-zA-Z]{3,}\b', s)`: the maximal word-character runs of `s`
that consist purely of letters and have length at least 3.  (A letter run glued
to a digit or underscore has no word boundary and is correctly excluded.) -/
def alphaRuns3 (s : String) : List String :=
  ((s.data.splitBy (fun a b => isWordChar a = isWordChar b)).filter
    (fun run => 3 ≤ run.length && run.all Char.isAlpha)).map (fun l => ⟨l⟩)

/- ---------------------------------------------------------------------------
Data model (`document_processor.py`, `persona_analyzer.py`,
`relevance_scorer.py`).  `start_position`/`end_position` and the
`ProcessedDocument.metadata` dict are never read by the scorer and are omitted.
--------------------------------------------------------------------------- -/

/-- `DocumentSection` dataclass. -/
structure DocumentSection where
  title : String
  content : String
  page_number : Nat
  section_number : Option String := none
deriving DecidableEq, Repr

/-- `ProcessedDocument` dataclass (scorer-relevant fields). -/
structure ProcessedDocument where
  filename : String
  total_pages : Nat
  sections : List DocumentSection
deriving DecidableEq, Repr

/-- `PersonaProfile` dataclass. -/
structure PersonaProfile where
  role : String
  expertise_domains : List String
  focus_areas : List String
  skill_level : String
  keywords : Finset String

/-- `JobRequirements` dataclass. -/
structure JobRequirements where
  primary_goal : String
  information_needs : List String
  deliverable_type : String
  priority_keywords : Finset String
  success_criteria : List String

/-- `ScoredSection` dataclass. -/
structure ScoredSection where
  document : String
  «section» : DocumentSection
  relevance_score : ℝ
  persona_alignment : ℝ
  job_alignment : ℝ
  importance_rank : Nat

/-- `SubSection` dataclass. -/
structure SubSection where
  document : String
  page_number : Nat
  refined_text : String
  parent_section : String
  relevance_score : ℝ

/- ---------------------------------------------------------------------------
RelevanceScorer (`relevance_scorer.py`).
--------------------------------------------------------------------------- -/

namespace RelevanceScorer

/-- `self.weights` from `RelevanceScorer.__init__`. -/
noncomputable def weights (k : String) : ℝ :=
  if k = "keyword_match" then 0.3
  else if k = "semantic_similarity" then 0.2
  else if k = "structural_importance" then 0.2
  else if k = "persona_alignment" then 0.15
  else if k = "job_alignment" then 0.15
  else 0

/-- `RelevanceScorer._calculate_keyword_score`. -/
noncomputable def calculate_keyword_score (sec : DocumentSection)
    (persona : PersonaProfile) (job : JobRequirements) : ℝ :=
  let content_lower := lower sec.content
  let title_lower := lower sec.title
  let all_keywords := persona.keywords ∪ job.priority_keywords
  if all_keywords = ∅ then 0
  else
    let content_matches := (all_keywords.filter (fun kw => containsSub content_lower kw)).card
    let title_matches := (all_keywords.filter (fun kw => containsSub title_lower kw)).card
    let total_matches := content_matches + title_matches * 2
    let content_words := (pySplit content_lower).length
    if content_words = 0 then 0
    else min ((total_matches : ℝ) / Real.sqrt content_words / Real.sqrt all_keywords.card) 1

/-- `high_value_terms` from `RelevanceScorer._calculate_structural_score`. -/
def high_value_terms : List String :=
  ["abstract", "introduction", "conclusion", "summary", "results",
   "methodology", "methods", "discussion", "findings", "analysis"]

/-- The `float(section.section_number.split('.')[0])` step guarded by the
truthiness test `if section.section_number:`; `none` means the guard failed or
the numeric parse raised `ValueError`.  (The leading component is parsed as an
integer; hierarchical numbers such as `"2.1"` have integral leading parts.) -/
def sectionNumberLeading (sn : Option String) : Option Int :=
  match sn with
  | none => none
  | some s => if s = "" then none else ((splitChars (fun c => c = '.') s.data).headD []).asString.toInt?

/-- The section-numbering contribution of `_calculate_structural_score`:
`0.2` when the leading numeric component is at most 3, else nothing (also
nothing when the guard fails or the parse raises). -/
noncomputable def numberBonus (sn : Option String) : ℝ :=
  match sectionNumberLeading sn with
  | some n => if n ≤ 3 then 0.2 else 0
  | none => 0

/-- `RelevanceScorer._calculate_structural_score`. -/
noncomputable def calculate_structural_score (sec : DocumentSection) : ℝ :=
  let title_lower := lower sec.title
  let titleScore : ℝ :=
    if high_value_terms.any (fun term => containsSub title_lower term) then 0.3 else 0
  let numberScore : ℝ := numberBonus sec.section_number
  let content_length := (pySplit sec.content).length
  let lengthScore : ℝ :=
    if 50 ≤ content_length ∧ content_length ≤ 500 then 0.2
    else if 500 < content_length then 0.1
    else 0
  let pageScore : ℝ := if sec.page_number ≤ 3 then 0.1 else 0
  min (titleScore + numberScore + lengthScore + pageScore) 1

/-- The title-independent part of `_calculate_structural_score` (numbering,
content-length and page-position contributions). -/
noncomputable def structural_rest (sec : DocumentSection) : ℝ :=
  numberBonus sec.section_number +
  (if 50 ≤ (pySplit sec.content).length ∧ (pySplit sec.content).length ≤ 500 then (0.2:ℝ)
   else if 500 < (pySplit sec.content).length then 0.1
   else 0) +
  (if sec.page_number ≤ 3 then (0.1:ℝ) else 0)

/-- The `domain_keywords` table of `RelevanceScorer._get_domain_keywords`. -/
def scorer_domain_keywords : List (String × List String) :=
  [("computer_science", ["algorithm", "programming", "software", "computing", "data", "neural", "machine"]),
   ("biology", ["gene", "protein", "cell", "organism", "molecular", "genetic"]),
   ("chemistry", ["reaction", "compound", "molecule", "synthesis", "organic", "kinetics"]),
   ("finance", ["revenue", "profit", "investment", "market", "financial"]),
   ("medicine", ["patient", "treatment", "clinical", "therapeutic", "medical"]),
   ("research", ["study", "analysis", "methodology", "experiment", "literature"]),
   ("education", ["learning", "curriculum", "academic", "study"]),
   ("business", ["strategy", "management", "operations", "marketing"])]

/-- `RelevanceScorer._get_domain_keywords` (`dict.get(domain, [])`). -/
def get_domain_keywords (domain : String) : List String :=
  match scorer_domain_keywords.find? (fun p => p.1 == domain) with
  | some p => p.2
  | none => []

/-- `RelevanceScorer._calculate_persona_alignment`. -/
noncomputable def calculate_persona_alignment (sec : DocumentSection)
    (persona : PersonaProfile) : ℝ :=
  let content_lower := lower sec.content
  let title_lower := lower sec.title
  let domainScore : ℝ :=
    ((persona.expertise_domains.filter (fun domain =>
        (get_domain_keywords domain).any (fun kw =>
          containsSub content_lower kw || containsSub title_lower kw))).length : ℝ) * 0.3
  let focusScore : ℝ :=
    ((persona.focus_areas.filter (fun focus_area =>
        (pySplit (lower focus_area)).any (fun word =>
          containsSub content_lower word || containsSub title_lower word))).length : ℝ) * 0.2
  let skillScore : ℝ :=
    if persona.skill_level = "expert" then
      if ["methodology", "analysis", "framework", "model", "algorithm"].any
          (fun term => containsSub content_lower term) then 0.1 else 0
    else if persona.skill_level = "beginner" then
      if ["introduction", "overview", "basic", "fundamental", "concept"].any
          (fun term => containsSub content_lower term) then 0.1 else 0
    else 0
  min (domainScore + focusScore + skillScore) 1

/-- The `deliverable_keywords` table of `RelevanceScorer._calculate_job_alignment`. -/
def deliverable_keywords : List (String × List String) :=
  [("analysis", ["analysis", "analyze", "examination", "evaluation"]),
   ("synthesis", ["summary", "overview", "compilation", "integration"]),
   ("review", ["review", "survey", "literature", "comprehensive"]),
   ("preparation", ["methodology", "approach", "framework", "procedure"]),
   ("identification", ["key", "important", "significant", "main"]),
   ("learning", ["concept", "principle", "fundamental", "theory"])]

/-- The deliverable-type contribution of `_calculate_job_alignment`: `0.2`
when the deliverable type is a key of `deliverable_keywords` and any of its
keywords occurs in the lower-cased body. -/
noncomputable def delivBonus (content_lower : String) (deliverable_type : String) : ℝ :=
  match deliverable_keywords.find? (fun p => p.1 == deliverable_type) with
  | some p => if p.2.any (fun kw => containsSub content_lower kw) then 0.2 else 0
  | none => 0

/-- `RelevanceScorer._calculate_job_alignment`. -/
noncomputable def calculate_job_alignment (sec : DocumentSection)
    (job : JobRequirements) : ℝ :=
  let content_lower := lower sec.content
  let title_lower := lower sec.title
  let goal_words := pySplit (lower job.primary_goal)
  let goalScore : ℝ :=
    if 0 < (goal_words.filter (fun word =>
        containsSub content_lower word || containsSub title_lower word)).length
    then 0.4 else 0
  let needScore : ℝ :=
    ((job.information_needs.filter (fun need =>
        (pySplit (lower need)).any (fun word =>
          containsSub content_lower word || containsSub title_lower word))).length : ℝ) * 0.2
  let delivScore : ℝ := delivBonus content_lower job.deliverable_type
  min (goalScore + needScore + delivScore) 1

/-- The per-section body of the loop in `RelevanceScorer.score_sections`
(component scores plus the weighted combination, lines 109-133); the semantic
component is passed in as the abstract TF-IDF similarity for this section. -/
noncomputable def score_one (doc_name : String) (sec : DocumentSection)
    (semantic_score : ℝ) (persona : PersonaProfile) (job : JobRequirements) : ScoredSection :=
  let keyword_score := calculate_keyword_score sec persona job
  let structural_score := calculate_structural_score sec
  let persona_alignment := calculate_persona_alignment sec persona
  let job_alignment := calculate_job_alignment sec job
  let relevance_score :=
    weights "keyword_match" * keyword_score +
    weights "semantic_similarity" * semantic_score +
    weights "structural_importance" * structural_score +
    weights "persona_alignment" * persona_alignment +
    weights "job_alignment" * job_alignment
  { document := doc_name
    «section» := sec
    relevance_score := relevance_score
    persona_alignment := persona_alignment
    job_alignment := job_alignment
    importance_rank := 0 }

/-- `RelevanceScorer.score_sections`.  `semantic i` is the TF-IDF cosine
similarity of the section at worklist index `i` (0 for every `i` when the
vectorizer degrades).  The Python `list.sort(key=..., reverse=True)` is a
stable descending sort on `relevance_score`. -/
noncomputable def score_sections (documents : List ProcessedDocument)
    (persona : PersonaProfile) (job : JobRequirements) (semantic : Nat → ℝ)
    (max_sections : Nat) : List ScoredSection :=
  let all_sections := documents.flatMap (fun doc => doc.sections.map (fun s => (doc.filename, s)))
  if all_sections.isEmpty then []
  else
    let scored_sections := all_sections.enum.map
      (fun p => score_one p.2.1 p.2.2 (semantic p.1) persona job)
    let sorted := scored_sections.mergeSort
      (fun a b => decide (b.relevance_score ≤ a.relevance_score))
    (sorted.take max_sections).enum.map
      (fun p => { p.2 with importance_rank := p.1 + 1 })

end RelevanceScorer

namespace RelevanceScorer

/-- `RelevanceScorer._score_sentence`. -/
noncomputable def score_sentence (sentence : String) (persona : PersonaProfile)
    (job : JobRequirements) : ℝ :=
  let sentence_lower := lower sentence
  let all_keywords := persona.keywords ∪ job.priority_keywords
  let keyword_matches := (all_keywords.filter (fun kw => containsSub sentence_lower kw)).card
  let keyword_score := min ((keyword_matches : ℝ) / ((pySplit sentence).length : ℝ) * 2) 1
  let length := (pySplit sentence).length
  let length_score : ℝ :=
    if 5 ≤ length ∧ length ≤ 30 then 1
    else if length < 5 then 0.5
    else max 0.1 (1 - ((length : ℝ) - 30) * 0.02)
  let quality_score : ℝ :=
    if ["result", "finding", "conclusion", "analysis", "method", "approach"].any
        (fun ind => containsSub sentence_lower ind) then 0.3 else 0
  keyword_score * 0.6 + length_score * 0.2 + quality_score * 0.2

/-- `RelevanceScorer._refine_sentence_with_context`. -/
def refine_sentence_with_context (target_sentence : String)
    (all_sentences : List String) : String :=
  match all_sentences.findIdx? (fun s => containsSub s (pyStrip target_sentence)) with
  | none => target_sentence
  | some target_index =>
    let context_sentences :=
      (if 0 < target_index then [all_sentences.getD (target_index - 1) ""] else []) ++
      [target_sentence] ++
      (if target_index < all_sentences.length - 1 then [all_sentences.getD (target_index + 1) ""] else [])
    collapseAndStrip (String.intercalate ". " context_sentences)

/-- The sentence-ending characters of the split pattern `[.!?]+`. -/
def isSentEnd (c : Char) : Bool := c = '.' || c = '!' || c = '?'

/-- Lines 368-369 of `_extract_section_subsections`: split the body on runs of
sentence-ending punctuation and keep the stripped fragments whose stripped
length exceeds 20 characters. -/
def retained_sentences (content : String) : List String :=
  ((reSplitRuns isSentEnd content).filter
    (fun s => 20 < (pyStrip s).data.length)).map pyStrip

/-- `RelevanceScorer._extract_section_subsections`. -/
noncomputable def extract_section_subsections (scored_section : ScoredSection)
    (persona : PersonaProfile) (job : JobRequirements) (max_subsections : Nat) :
    List SubSection :=
  let sec := scored_section.«section»
  let content := sec.content
  let sentences := retained_sentences content
  if sentences.isEmpty then []
  else
    let sentence_scores := sentences.map (fun s => (s, score_sentence s persona job))
    let sorted := sentence_scores.mergeSort (fun a b => decide (b.2 ≤ a.2))
    let top_sentences := sorted.take max_subsections
    top_sentences.map (fun p =>
      { document := scored_section.document
        page_number := sec.page_number
        refined_text := refine_sentence_with_context p.1 sentences
        parent_section := sec.title
        relevance_score := p.2 })

/-- `RelevanceScorer.extract_subsections`: per-section extraction followed by a
stable global sort on relevance, descending. -/
noncomputable def extract_subsections (sections : List ScoredSection)
    (persona : PersonaProfile) (job : JobRequirements) (max_subsections : Nat) :
    List SubSection :=
  (sections.flatMap (fun ss => extract_section_subsections ss persona job max_subsections)).mergeSort
    (fun a b => decide (b.relevance_score ≤ a.relevance_score))

end RelevanceScorer

/- ---------------------------------------------------------------------------
PersonaAnalyzer (`persona_analyzer.py`).
--------------------------------------------------------------------------- -/

namespace PersonaAnalyzer

/-- `self.domain_keywords` from `PersonaAnalyzer.__init__`.  (The keywords
`"AI"` and `"ML"` are stored capitalized in the source and are tested against
lower-cased text, so they can never fire; they are kept verbatim.) -/
def domain_keywords : List (String × List String) :=
  [("computer_science", ["algorithm", "programming", "software", "computing", "data structure", "AI", "ML", "neural network"]),
   ("biology", ["gene", "protein", "cell", "organism", "evolution", "molecular", "biochemistry", "genetics"]),
   ("chemistry", ["reaction", "compound", "molecule", "synthesis", "organic", "inorganic", "kinetics", "thermodynamics"]),
   ("finance", ["revenue", "profit", "investment", "market", "financial", "economics", "trading", "portfolio"]),
   ("medicine", ["patient", "treatment", "diagnosis", "clinical", "therapeutic", "medical", "healthcare", "disease"]),
   ("research", ["study", "analysis", "methodology", "experiment", "hypothesis", "literature", "peer review", "publication"]),
   ("education", ["student", "learning", "curriculum", "teaching", "academic", "exam", "course", "study"]),
   ("business", ["strategy", "management", "operations", "marketing", "sales", "customer", "competitive", "market"])]

/-- `self.skill_indicators`, in dict insertion order. -/
def skill_indicators : List (String × List String) :=
  [("beginner", ["student", "undergraduate", "learner", "new", "entry-level"]),
   ("intermediate", ["graduate", "analyst", "associate", "junior"]),
   ("advanced", ["senior", "manager", "specialist", "experienced"]),
   ("expert", ["phd", "professor", "director", "principal", "chief", "lead", "expert"])]

/-- `self.job_types`, in dict insertion order. -/
def job_types : List (String × List String) :=
  [("analysis", ["analyze", "analysis", "examine", "evaluate", "assess", "compare"]),
   ("synthesis", ["summarize", "compile", "integrate", "combine", "consolidate"]),
   ("review", ["review", "survey", "overview", "comprehensive", "literature"]),
   ("preparation", ["prepare", "create", "develop", "design", "build"]),
   ("identification", ["identify", "find", "locate", "extract", "select"]),
   ("learning", ["learn", "study", "understand", "master", "practice"])]

/-- Abstract interface to the Python `re` engine for the analyzer's non-trivial
patterns, threaded through with the pattern source text exactly as written.
`search pat s` returns `group(0)` of the first `re.search` match of `pat` in
`s` (case-insensitive flag as in the source), `findall pat s` the group-1
captures of all matches, and `matchStart pat s` the group-1 capture of the
anchored `re.match`. -/
structure RegexOracle where
  search : String → String → Option String
  findall : String → String → List String
  matchStart : String → String → Option String

/-- `role_patterns` from `PersonaAnalyzer._extract_role`. -/
def role_patterns : List String :=
  [r"(PhD\s+)?([A-Z][a-z]+(?:\s+[A-Z][a-z]+)*)\s+(?:Researcher|Student|Analyst|Manager|Director)",
   r"(Undergraduate|Graduate)\s+([A-Z][a-z]+(?:\s+[A-Z][a-z]+)*)\s+Student",
   r"([A-Z][a-z]+(?:\s+[A-Z][a-z]+)*)\s+(Analyst|Researcher|Scientist|Engineer|Manager)"]

/-- `PersonaAnalyzer._extract_role`. -/
def extract_role (rx : RegexOracle) (description : String) : String :=
  match role_patterns.findSome? (fun pattern => rx.search pattern description) with
  | some m => pyStrip m
  | none =>
    let words := pySplit description
    if 2 ≤ words.length then String.intercalate " " (words.take 3)
    else pyStrip description

/-- `PersonaAnalyzer._determine_skill_level`. -/
def determine_skill_level (description : String) : String :=
  let description_lower := lower description
  (skill_indicators.findSome? (fun p =>
    if p.2.any (fun ind => containsSub description_lower ind) then some p.1
    else none)).getD "intermediate"

/-- `domain_patterns` from `PersonaAnalyzer._extract_expertise_domains`. -/
def domain_patterns : List String :=
  [r"in\s+([A-Z][a-z]+(?:\s+[A-Z][a-z]+)*)",
   r"([A-Z][a-z]+(?:\s+[A-Z][a-z]+)*)\s+(?:research|studies|field)"]

/-- `PersonaAnalyzer._extract_expertise_domains`.  The final Python
`list(set(domains))` returns the distinct tags in unspecified order; it is
modelled as deduplication. -/
def extract_expertise_domains (rx : RegexOracle) (description : String) : List String :=
  let description_lower := lower description
  let base := (domain_keywords.filter (fun p =>
      p.2.any (fun kw => containsSub description_lower kw))).map Prod.fst
  let extra := domain_patterns.flatMap (fun pattern =>
      (rx.findall pattern description).map (fun m => underscore (lower m)))
  (base ++ extra).dedup

/-- `focus_patterns` from `PersonaAnalyzer._extract_focus_areas`. -/
def focus_patterns : List String :=
  [r"focus(?:ing|es)?\s+on\s+([^,.]+)",
   r"specializ(?:ing|es)?\s+in\s+([^,.]+)",
   r"expert(?:ise)?\s+in\s+([^,.]+)",
   r"working\s+(?:on|with)\s+([^,.]+)"]

/-- `PersonaAnalyzer._extract_focus_areas`. -/
def extract_focus_areas (rx : RegexOracle) (description : String) : List String :=
  focus_patterns.flatMap (fun pattern => (rx.findall pattern description).map pyStrip)

/-- The persona stop-word set of `PersonaAnalyzer._generate_persona_keywords`. -/
def persona_stop_words : Finset String :=
  {"the", "and", "for", "are", "but", "not", "you", "all", "can", "had", "her",
   "was", "one", "our", "out", "day", "get", "has", "him", "his", "how", "man",
   "new", "now", "old", "see", "two", "way", "who", "its", "said", "each",
   "make", "most", "over", "such", "very", "what", "with"}

/-- `PersonaAnalyzer._generate_persona_keywords`. -/
def generate_persona_keywords (description : String) (domains : List String) : Finset String :=
  let words := alphaRuns3 (lower description)
  let keywords := words.toFinset ∪
    (domains.flatMap (fun domain =>
      match domain_keywords.find? (fun p => p.1 == domain) with
      | some p => p.2
      | none => [])).toFinset
  keywords \ persona_stop_words

/-- `PersonaAnalyzer.analyze_persona`. -/
def analyze_persona (rx : RegexOracle) (persona_description : String) : PersonaProfile :=
  let role := extract_role rx persona_description
  let skill_level := determine_skill_level persona_description
  let expertise_domains := extract_expertise_domains rx persona_description
  let focus_areas := extract_focus_areas rx persona_description
  let keywords := generate_persona_keywords persona_description expertise_domains
  { role := role
    expertise_domains := expertise_domains
    focus_areas := focus_areas
    skill_level := skill_level
    keywords := keywords }

/-- `PersonaAnalyzer._extract_primary_goal` (anchored match, else the text up
to the first period, stripped). -/
def extract_primary_goal (rx : RegexOracle) (job_description : String) : String :=
  match rx.matchStart r"^([A-Z][a-z]+(?:\s+[a-z]+)*)" job_description with
  | some g => g
  | none => pyStrip ⟨(splitChars (fun c => c = '.') job_description.data).headD []⟩

/-- `need_patterns` from `PersonaAnalyzer._extract_information_needs`. -/
def need_patterns : List String :=
  [r"focus(?:ing|es)?\s+on\s+([^,.]+)",
   r"includ(?:ing|es)?\s+([^,.]+)",
   r"such\s+as\s+([^,.]+)",
   r"(?:about|regarding|concerning)\s+([^,.]+)"]

/-- `PersonaAnalyzer._extract_information_needs`. -/
def extract_information_needs (rx : RegexOracle) (job_description : String) : List String :=
  need_patterns.flatMap (fun pattern => (rx.findall pattern job_description).map pyStrip)

/-- `PersonaAnalyzer._determine_deliverable_type`: first indicator list (in the
declared order of `job_types`) with a substring hit in the lower-cased input
wins; default `"analysis"`. -/
def determine_deliverable_type (job_description : String) : String :=
  let description_lower := lower job_description
  (job_types.findSome? (fun p =>
    if p.2.any (fun ind => containsSub description_lower ind) then some p.1
    else none)).getD "analysis"

/-- The job stop-word set of `PersonaAnalyzer._extract_priority_keywords`. -/
def job_stop_words : Finset String :=
  {"the", "and", "for", "are", "but", "not", "you", "all", "can", "had", "her",
   "was", "one", "our", "out", "day", "get", "has", "him", "his", "how", "man",
   "new", "now", "old", "see", "two", "way", "who", "its", "said", "each",
   "make", "most", "over", "such", "very", "what", "with", "given", "that",
   "this", "should", "will", "from"}

/-- `PersonaAnalyzer._extract_priority_keywords`. -/
def extract_priority_keywords (job_description : String) : Finset String :=
  (alphaRuns3 (lower job_description)).toFinset \ job_stop_words

/-- `PersonaAnalyzer._define_success_criteria`. -/
def define_success_criteria (job_description : String) : List String :=
  let jl := lower job_description
  let criteria :=
    (if containsSub jl "comprehensive" then ["Comprehensive coverage of topic"] else []) ++
    (if ["methodology", "method"].any (fun w => containsSub jl w) then ["Clear methodology explanation"] else []) ++
    (if ["performance", "benchmark", "result"].any (fun w => containsSub jl w) then ["Performance metrics and results"] else []) ++
    (if ["trend", "analysis", "compare"].any (fun w => containsSub jl w) then ["Trend analysis and comparisons"] else [])
  if criteria.isEmpty then
    ["Relevant content extraction", "Clear organization", "Actionable insights"]
  else criteria

/-- `PersonaAnalyzer.analyze_job`. -/
def analyze_job (rx : RegexOracle) (job_description : String) : JobRequirements :=
  let primary_goal := extract_primary_goal rx job_description
  let information_needs := extract_information_needs rx job_description
  let deliverable_type := determine_deliverable_type job_description
  let priority_keywords := extract_priority_keywords job_description
  let success_criteria := define_success_criteria job_description
  { primary_goal := primary_goal
    information_needs := information_needs
    deliverable_type := deliverable_type
    priority_keywords := priority_keywords
    success_criteria := success_criteria }

end PersonaAnalyzer

namespace RelevanceScorer

/-- The total number of sections across all documents (the length of the
flattened worklist of `score_sections`). -/
def total_sections (documents : List ProcessedDocument) : Nat :=
  (documents.flatMap (fun doc => doc.sections)).length

/-- The keyword score as the specification sentence describes it, under the
reading in which `content_matches` and `title_matches` count every substring
occurrence of every keyword (with multiplicity):
`min(1, (content_matches + 2*title_matches) / (sqrt(word_count) * sqrt(|K|)))`.
Compare with `calculate_keyword_score`, which counts each keyword at most
once (a keyword either occurs as a substring or it does not). -/
noncomputable def keyword_score_occurrence_reading (sec : DocumentSection)
    (persona : PersonaProfile) (job : JobRequirements) : ℝ :=
  let content_lower := lower sec.content
  let title_lower := lower sec.title
  let K := persona.keywords ∪ job.priority_keywords
  if K = ∅ then 0
  else
    let content_matches := ∑ kw ∈ K, countOccs content_lower kw
    let title_matches := ∑ kw ∈ K, countOccs title_lower kw
    min 1 (((content_matches + 2 * title_matches : ℕ) : ℝ) /
      (Real.sqrt ((pySplit content_lower).length) * Real.sqrt K.card))

/-- The keyword-score formula of the specification under the corrected
reading: `content_matches`/`title_matches` count the keywords of `K` that
occur as substrings (each keyword at most once), and the score is
`min(1, (content_matches + 2*title_matches) / (sqrt(word_count) * sqrt(|K|)))`
(stated without the empty-`K` and zero-word-count guards, which the theorem
carries as hypotheses). -/
noncomputable def keyword_score_presence_reading (sec : DocumentSection)
    (persona : PersonaProfile) (job : JobRequirements) : ℝ :=
  let K := persona.keywords ∪ job.priority_keywords
  let content_matches := (K.filter (fun kw => containsSub (lower sec.content) kw)).card
  let title_matches := (K.filter (fun kw => containsSub (lower sec.title) kw)).card
  min 1 (((content_matches + 2 * title_matches : ℕ) : ℝ) /
    (Real.sqrt ((pySplit (lower sec.content)).length) * Real.sqrt K.card))

end RelevanceScorer

/-- A `RegexOracle` that finds nothing anywhere: the behaviour of the real
`re` engine on inputs none of the analyzer's patterns match (for instance the
empty string, which no analyzer pattern matches since each demands at least
one character). -/
def noMatchOracle : PersonaAnalyzer.RegexOracle :=
  { search := fun _ _ => none
    findall := fun _ _ => []
    matchStart := fun _ _ => none }

/- ---------------------------------------------------------------------------
Helper lemmas: every component score lies in [0,1].
--------------------------------------------------------------------------- -/

namespace RelevanceScorer

theorem numberBonus_nonneg (sn : Option String) : 0 ≤ numberBonus sn := by
  unfold numberBonus
  cases h : sectionNumberLeading sn with
  | none => simp [h]
  | some n =>
    simp only [h]
    split_ifs <;> norm_num

theorem numberBonus_le (sn : Option String) : numberBonus sn ≤ 0.2 := by
  unfold numberBonus
  cases h : sectionNumberLeading sn with
  | none => simp [h]; norm_num
  | some n =>
    simp only [h]
    split_ifs <;> norm_num

theorem delivBonus_nonneg (cl dt : String) : 0 ≤ delivBonus cl dt := by
  unfold delivBonus
  cases h : deliverable_keywords.find? (fun p => p.1 == dt) with
  | none => simp [h]
  | some p =>
    simp only [h]
    split_ifs <;> norm_num

theorem delivBonus_le (cl dt : String) : delivBonus cl dt ≤ 0.2 := by
  unfold delivBonus
  cases h : deliverable_keywords.find? (fun p => p.1 == dt) with
  | none => simp [h]; norm_num
  | some p =>
    simp only [h]
    split_ifs <;> norm_num

theorem calculate_keyword_score_mem (sec : DocumentSection) (persona : PersonaProfile)
    (job : JobRequirements) :
    0 ≤ calculate_keyword_score sec persona job ∧ calculate_keyword_score sec persona job ≤ 1 := by
  simp only [calculate_keyword_score]
  split_ifs with h1 h2
  · norm_num
  · norm_num
  · exact ⟨le_min (by positivity) zero_le_one, min_le_right _ _⟩

theorem calculate_structural_score_mem (sec : DocumentSection) :
    0 ≤ calculate_structural_score sec ∧ calculate_structural_score sec ≤ 1 := by
  simp only [calculate_structural_score]
  refine ⟨le_min ?_ zero_le_one, min_le_right _ _⟩
  have h1 := numberBonus_nonneg sec.section_number
  split_ifs <;> linarith

theorem calculate_persona_alignment_mem (sec : DocumentSection) (persona : PersonaProfile) :
    0 ≤ calculate_persona_alignment sec persona ∧ calculate_persona_alignment sec persona ≤ 1 := by
  simp only [calculate_persona_alignment]
  refine ⟨le_min ?_ zero_le_one, min_le_right _ _⟩
  have h1 : (0:ℝ) ≤ ((persona.expertise_domains.filter (fun domain =>
      (get_domain_keywords domain).any (fun kw =>
        containsSub (lower sec.content) kw || containsSub (lower sec.title) kw))).length : ℝ) * 0.3 := by
    positivity
  have h2 : (0:ℝ) ≤ ((persona.focus_areas.filter (fun focus_area =>
      (pySplit (lower focus_area)).any (fun word =>
        containsSub (lower sec.content) word || containsSub (lower sec.title) word))).length : ℝ) * 0.2 := by
    positivity
  split_ifs <;> linarith

theorem calculate_job_alignment_mem (sec : DocumentSection) (job : JobRequirements) :
    0 ≤ calculate_job_alignment sec job ∧ calculate_job_alignment sec job ≤ 1 := by
  simp only [calculate_job_alignment]
  refine ⟨le_min ?_ zero_le_one, min_le_right _ _⟩
  have h1 : (0:ℝ) ≤ ((job.information_needs.filter (fun need =>
      (pySplit (lower need)).any (fun word =>
        containsSub (lower sec.content) word || containsSub (lower sec.title) word))).length : ℝ) * 0.2 := by
    positivity
  have h2 := delivBonus_nonneg (lower sec.content) job.deliverable_type
  split_ifs <;> linarith

end RelevanceScorer

namespace RelevanceScorer

/-- Arithmetic form of the sentence score: a `0.6/0.2/0.2` mix of three
quantities in `[0,1]` is again in `[0,1]`. -/
theorem sentence_combo_mem {k l q : ℝ} (hk0 : 0 ≤ k) (hk1 : k ≤ 1) (hl0 : 0 ≤ l)
    (hl1 : l ≤ 1) (hq0 : 0 ≤ q) (hq1 : q ≤ 1) :
    0 ≤ k * 0.6 + l * 0.2 + q * 0.2 ∧ k * 0.6 + l * 0.2 + q * 0.2 ≤ 1 := by
  constructor <;> nlinarith

theorem score_sentence_mem (sentence : String) (persona : PersonaProfile)
    (job : JobRequirements) :
    0 ≤ score_sentence sentence persona job ∧ score_sentence sentence persona job ≤ 1 := by
  simp only [score_sentence]
  apply sentence_combo_mem
  · exact le_min (by positivity) zero_le_one
  · exact min_le_right _ _
  · split_ifs with h1 h2
    · norm_num
    · norm_num
    · exact le_trans (by norm_num) (le_max_left _ _)
  · split_ifs with h1 h2
    · norm_num
    · norm_num
    · refine max_le (by norm_num) ?_
      have hw : 30 < (pySplit sentence).length := by omega
      have hw' : (30:ℝ) < ((pySplit sentence).length : ℝ) := by exact_mod_cast hw
      nlinarith
  · split_ifs <;> norm_num
  · split_ifs <;> norm_num

/-- Decomposition of membership in the output of `score_sections`: every
returned element is a rank-annotated `score_one` result for some worklist
index and some (document, section) pair. -/
theorem mem_score_sections {documents : List ProcessedDocument} {persona : PersonaProfile}
    {job : JobRequirements} {semantic : Nat → ℝ} {max_sections : Nat} {ss : ScoredSection}
    (h : ss ∈ score_sections documents persona job semantic max_sections) :
    ∃ r idx doc_name sec,
      ss = { score_one doc_name sec (semantic idx) persona job with importance_rank := r } := by
  simp only [score_sections] at h
  split_ifs at h with hempty
  · simp at h
  · rw [List.mem_map] at h
    obtain ⟨⟨i, x⟩, hmem, heq⟩ := h
    have hx : x ∈ (((documents.flatMap (fun doc => doc.sections.map (fun s => (doc.filename, s)))).enum.map
        (fun p => score_one p.2.1 p.2.2 (semantic p.1) persona job)).mergeSort
        (fun a b => decide (b.relevance_score ≤ a.relevance_score))).take max_sections := by
      have := List.mem_enumFrom hmem
      obtain ⟨-, -, hx⟩ := this
      rw [hx]
      exact List.getElem_mem _
    have hx2 := List.mem_of_mem_take hx
    rw [List.mem_mergeSort, List.mem_map] at hx2
    obtain ⟨⟨idx, dn, sec⟩, -, hx3⟩ := hx2
    exact ⟨i + 1, idx, dn, sec, by rw [← heq, ← hx3]⟩

end RelevanceScorer

namespace RelevanceScorer

/-- C1: for every section scored by `score_sections`, if the five component
scores (keyword, semantic, structural, persona alignment, job alignment) each
lie in [0,1] — the four deterministic components always do, and the abstract
semantic component is assumed to — then the combined relevance score equals
`0.30*keyword + 0.20*semantic + 0.20*structural + 0.15*persona_alignment +
0.15*job_alignment` and also lies in [0,1]. -/
theorem C1_relevance_is_weighted_combination (documents : List ProcessedDocument)
    (persona : PersonaProfile) (job : JobRequirements) (semantic : Nat → ℝ)
    (max_sections : Nat) (ss : ScoredSection)
    (hmem : ss ∈ score_sections documents persona job semantic max_sections)
    (hsem : ∀ i, 0 ≤ semantic i ∧ semantic i ≤ 1) :
    (∃ s, (0 ≤ s ∧ s ≤ 1) ∧
      ss.relevance_score =
        0.30 * calculate_keyword_score ss.«section» persona job + 0.20 * s +
        0.20 * calculate_structural_score ss.«section» +
        0.15 * calculate_persona_alignment ss.«section» persona +
        0.15 * calculate_job_alignment ss.«section» job) ∧
    0 ≤ ss.relevance_score ∧ ss.relevance_score ≤ 1 := by
  obtain ⟨r, idx, dn, sec, rfl⟩ := mem_score_sections hmem
  have hw1 : weights "keyword_match" = 0.3 := by simp [weights]
  have hw2 : weights "semantic_similarity" = 0.2 := by simp [weights]
  have hw3 : weights "structural_importance" = 0.2 := by simp [weights]
  have hw4 : weights "persona_alignment" = 0.15 := by simp [weights]
  have hw5 : weights "job_alignment" = 0.15 := by simp [weights]
  simp only [score_one, hw1, hw2, hw3, hw4, hw5]
  obtain ⟨hk0, hk1⟩ := calculate_keyword_score_mem sec persona job
  obtain ⟨ht0, ht1⟩ := calculate_structural_score_mem sec
  obtain ⟨hp0, hp1⟩ := calculate_persona_alignment_mem sec persona
  obtain ⟨hj0, hj1⟩ := calculate_job_alignment_mem sec job
  obtain ⟨hs0, hs1⟩ := hsem idx
  refine ⟨⟨semantic idx, ⟨hs0, hs1⟩, by norm_num⟩, by linarith, by linarith⟩

/-- Witness for C1: a concrete one-section corpus with the degraded (constant
zero) semantic component. -/
theorem C1_relevance_is_weighted_combination_witness :
    ({ score_one "doc.pdf" ⟨"Intro", "alpha beta gamma", 1, none⟩ 0
        ⟨"r", [], [], "intermediate", ∅⟩ ⟨"g", [], "analysis", ∅, []⟩ with importance_rank := 1 }
      ∈ score_sections [⟨"doc.pdf", 3, [⟨"Intro", "alpha beta gamma", 1, none⟩]⟩]
        ⟨"r", [], [], "intermediate", ∅⟩ ⟨"g", [], "analysis", ∅, []⟩ (fun _ => 0) 10) ∧
    (∀ i : Nat, (0:ℝ) ≤ (fun _ => (0:ℝ)) i ∧ (fun _ => (0:ℝ)) i ≤ 1) ∧
    (0 ≤ ({ score_one "doc.pdf" ⟨"Intro", "alpha beta gamma", 1, none⟩ 0
        ⟨"r", [], [], "intermediate", ∅⟩ ⟨"g", [], "analysis", ∅, []⟩ with importance_rank := 1 } :
          ScoredSection).relevance_score ∧
      ({ score_one "doc.pdf" ⟨"Intro", "alpha beta gamma", 1, none⟩ 0
        ⟨"r", [], [], "intermediate", ∅⟩ ⟨"g", [], "analysis", ∅, []⟩ with importance_rank := 1 } :
          ScoredSection).relevance_score ≤ 1) := by
  have hmem : ({ score_one "doc.pdf" ⟨"Intro", "alpha beta gamma", 1, none⟩ 0
      ⟨"r", [], [], "intermediate", ∅⟩ ⟨"g", [], "analysis", ∅, []⟩ with importance_rank := 1 }
      ∈ score_sections [⟨"doc.pdf", 3, [⟨"Intro", "alpha beta gamma", 1, none⟩]⟩]
        ⟨"r", [], [], "intermediate", ∅⟩ ⟨"g", [], "analysis", ∅, []⟩ (fun _ => 0) 10) := by
    have heq : score_sections [⟨"doc.pdf", 3, [⟨"Intro", "alpha beta gamma", 1, none⟩]⟩]
        ⟨"r", [], [], "intermediate", ∅⟩ ⟨"g", [], "analysis", ∅, []⟩ (fun _ => 0) 10 =
        [{ score_one "doc.pdf" ⟨"Intro", "alpha beta gamma", 1, none⟩ 0
          ⟨"r", [], [], "intermediate", ∅⟩ ⟨"g", [], "analysis", ∅, []⟩ with importance_rank := 1 }] := by
      simp [score_sections, List.enum_cons, List.mergeSort_singleton]
    rw [heq]
    exact List.mem_singleton.mpr rfl
  have hsem : ∀ i : Nat, (0:ℝ) ≤ (fun _ => (0:ℝ)) i ∧ (fun _ => (0:ℝ)) i ≤ 1 :=
    fun i => ⟨le_refl 0, zero_le_one⟩
  exact ⟨hmem, hsem,
    (C1_relevance_is_weighted_combination _ _ _ _ _ _ hmem hsem).2⟩

end RelevanceScorer

namespace RelevanceScorer

/-- The tagged worklist of `score_sections` has exactly `total_sections`
elements. -/
theorem length_worklist (documents : List ProcessedDocument) :
    (documents.flatMap (fun doc => doc.sections.map (fun s => (doc.filename, s)))).length
      = total_sections documents := by
  simp [total_sections, List.length_flatMap, Function.comp_def]

/-- Mapping `importance_rank` over the rank-assignment step yields consecutive
integers. -/
theorem rank_assignment_map (l : List ScoredSection) : ∀ n : Nat,
    ((List.enumFrom n l).map (fun p => { p.2 with importance_rank := p.1 + 1 })).map
        (fun ss => ss.importance_rank)
      = List.range' (n + 1) l.length := by
  induction l with
  | nil => intro n; rfl
  | cons x xs ih =>
    intro n
    simp only [List.enumFrom_cons, List.map_cons, List.length_cons, List.range'_succ]
    exact congrArg _ (ih (n + 1))

/-- C3: `score_sections` returns exactly `min max_sections N` sections (where
`N` is the total number of sections in the input documents), carrying
importance ranks exactly `1..min max_sections N` in list order, with no gaps
and no repeats; in particular the empty worklist yields the empty list. -/
theorem C3_length_and_ranks (documents : List ProcessedDocument)
    (persona : PersonaProfile) (job : JobRequirements) (semantic : Nat → ℝ)
    (max_sections : Nat) :
    (score_sections documents persona job semantic max_sections).length
      = min max_sections (total_sections documents) ∧
    (score_sections documents persona job semantic max_sections).map
        (fun ss => ss.importance_rank)
      = List.range' 1 (min max_sections (total_sections documents)) := by
  simp only [score_sections]
  split_ifs with hempty
  · rw [List.isEmpty_iff] at hempty
    have h0 : total_sections documents = 0 := by
      rw [← length_worklist, hempty]
      rfl
    simp [h0]
  · have hlen : ((((documents.flatMap (fun doc => doc.sections.map (fun s => (doc.filename, s)))).enum.map
        (fun p => score_one p.2.1 p.2.2 (semantic p.1) persona job)).mergeSort
        (fun a b => decide (b.relevance_score ≤ a.relevance_score))).take max_sections).length
        = min max_sections (total_sections documents) := by
      rw [List.length_take, List.length_mergeSort, List.length_map, List.enum_length,
        length_worklist]
    constructor
    · rw [List.length_map, List.enum_length, hlen]
    · have h := rank_assignment_map
        ((((documents.flatMap (fun doc => doc.sections.map (fun s => (doc.filename, s)))).enum.map
          (fun p => score_one p.2.1 p.2.2 (semantic p.1) persona job)).mergeSort
          (fun a b => decide (b.relevance_score ≤ a.relevance_score))).take max_sections) 0
      rw [hlen] at h
      exact h

/-- C7: `score_sections` is deterministic — two calls whose documents, persona
profile, job requirements, semantic-similarity assignment and cap are equal
return element-wise identical lists, with the same order and the same
importance-rank assignments. -/
theorem C7_deterministic (documents₁ documents₂ : List ProcessedDocument)
    (persona₁ persona₂ : PersonaProfile) (job₁ job₂ : JobRequirements)
    (semantic₁ semantic₂ : Nat → ℝ) (max_sections₁ max_sections₂ : Nat)
    (hd : documents₁ = documents₂) (hp : persona₁ = persona₂) (hj : job₁ = job₂)
    (hs : semantic₁ = semantic₂) (hm : max_sections₁ = max_sections₂) :
    score_sections documents₁ persona₁ job₁ semantic₁ max_sections₁
      = score_sections documents₂ persona₂ job₂ semantic₂ max_sections₂ ∧
    (score_sections documents₁ persona₁ job₁ semantic₁ max_sections₁).map
        (fun ss => ss.importance_rank)
      = (score_sections documents₂ persona₂ job₂ semantic₂ max_sections₂).map
        (fun ss => ss.importance_rank) := by
  subst hd hp hj hs hm
  exact ⟨rfl, rfl⟩

/-- Witness for C7 at a concrete repeated call. -/
theorem C7_deterministic_witness :
    score_sections [⟨"a.pdf", 2, [⟨"Results", "alpha beta", 1, some "2"⟩]⟩]
        ⟨"r", [], [], "expert", ∅⟩ ⟨"g", [], "review", ∅, []⟩ (fun _ => 0) 5
      = score_sections [⟨"a.pdf", 2, [⟨"Results", "alpha beta", 1, some "2"⟩]⟩]
        ⟨"r", [], [], "expert", ∅⟩ ⟨"g", [], "review", ∅, []⟩ (fun _ => 0) 5 :=
  (C7_deterministic _ _ _ _ _ _ _ _ _ _ rfl rfl rfl rfl rfl).1

end RelevanceScorer

namespace RelevanceScorer

/-- The structural score splits into the title bonus plus the
title-independent rest, clamped at 1. -/
theorem calculate_structural_score_split (sec : DocumentSection) :
    calculate_structural_score sec =
      min ((if high_value_terms.any (fun term => containsSub (lower sec.title) term)
            then (0.3:ℝ) else 0) + structural_rest sec) 1 := by
  simp only [calculate_structural_score, structural_rest]
  ring_nf

theorem structural_rest_nonneg (sec : DocumentSection) : 0 ≤ structural_rest sec := by
  unfold structural_rest
  have hn := numberBonus_nonneg sec.section_number
  split_ifs <;> linarith

theorem structural_rest_le (sec : DocumentSection) : structural_rest sec ≤ 0.5 := by
  unfold structural_rest
  have hn := numberBonus_le sec.section_number
  split_ifs <;> linarith

/-- C6: replacing the title of a section that contains no high-value term by a
title containing one (all other fields equal) raises the structural component
score by exactly 0.3, a strict increase. -/
theorem C6_high_value_title_raises_structural (sec : DocumentSection) (newTitle : String)
    (h1 : ∀ term ∈ high_value_terms, ¬ containsSub (lower sec.title) term = true)
    (h2 : ∃ term ∈ high_value_terms, containsSub (lower newTitle) term = true) :
    calculate_structural_score { sec with title := newTitle }
        = calculate_structural_score sec + 0.3 ∧
    calculate_structural_score sec < calculate_structural_score { sec with title := newTitle } := by
  have hany1 : high_value_terms.any (fun term => containsSub (lower sec.title) term) = false :=
    List.any_eq_false.mpr h1
  have hany2 : high_value_terms.any (fun term => containsSub (lower newTitle) term) = true := by
    rw [List.any_eq_true]
    exact h2
  have hrest : structural_rest { sec with title := newTitle } = structural_rest sec := rfl
  rw [calculate_structural_score_split, calculate_structural_score_split]
  simp only [hrest]
  rw [if_pos hany2, if_neg (by rw [hany1]; exact Bool.false_ne_true)]
  have h0 := structural_rest_nonneg sec
  have h5 := structural_rest_le sec
  rw [min_eq_left (by linarith), min_eq_left (by linarith)]
  constructor
  · ring
  · linarith

/-- Witness for C6: retitling a "References" section to "Results". -/
theorem C6_high_value_title_raises_structural_witness :
    (∀ term ∈ high_value_terms,
      ¬ containsSub (lower (⟨"References", "short body", 6, none⟩ : DocumentSection).title) term = true) ∧
    (∃ term ∈ high_value_terms, containsSub (lower "Results") term = true) ∧
    calculate_structural_score { (⟨"References", "short body", 6, none⟩ : DocumentSection) with title := "Results" }
      = calculate_structural_score ⟨"References", "short body", 6, none⟩ + 0.3 :=
  ⟨by decide, by decide,
    (C6_high_value_title_raises_structural ⟨"References", "short body", 6, none⟩ "Results"
      (by decide) (by decide)).1⟩

end RelevanceScorer

namespace RelevanceScorer

/-- C10: an expertise-domain tag that is not one of the eight fixed domain
names of the scorer's table — in particular any free-text tag produced by the
analyzer's "in X" / "X research|studies|field" patterns that is not such a name
— gets the empty keyword list from `_get_domain_keywords` and therefore
contributes exactly 0 to the persona-alignment score of every section. -/
theorem C10_unknown_domain_contributes_nothing (domain : String)
    (hd : domain ∉ ["computer_science", "biology", "chemistry", "finance", "medicine",
      "research", "education", "business"]) :
    get_domain_keywords domain = [] ∧
    ∀ (sec : DocumentSection) (persona : PersonaProfile),
      calculate_persona_alignment sec
          { persona with expertise_domains := domain :: persona.expertise_domains }
        = calculate_persona_alignment sec persona := by
  simp only [List.mem_cons, not_or] at hd
  have hkw : get_domain_keywords domain = [] := by
    unfold get_domain_keywords
    have hnone : scorer_domain_keywords.find? (fun p => p.1 == domain) = none := by
      rw [List.find?_eq_none]
      intro x hx
      fin_cases hx <;>
        · simp only [beq_iff_eq]
          intro heq
          exact absurd heq.symm (by tauto)
    rw [hnone]
  refine ⟨hkw, fun sec persona => ?_⟩
  have hany : (get_domain_keywords domain).any (fun kw =>
      containsSub (lower sec.content) kw || containsSub (lower sec.title) kw) = false := by
    rw [hkw]
    rfl
  simp only [calculate_persona_alignment, List.filter_cons, hany]
  norm_num

/-- Witness for C10 at the free-text tag "computational_biology" (as produced
from the phrase "in Computational Biology"). -/
theorem C10_unknown_domain_contributes_nothing_witness :
    ("computational_biology" ∉ (["computer_science", "biology", "chemistry", "finance",
      "medicine", "research", "education", "business"] : List String)) ∧
    get_domain_keywords "computational_biology" = [] :=
  ⟨by decide, (C10_unknown_domain_contributes_nothing "computational_biology" (by decide)).1⟩

end RelevanceScorer

namespace PersonaAnalyzer

/-- C8: the deliverable type is decided by testing the six fixed indicator
lists in the declared order (analysis, synthesis, review, preparation,
identification, learning) against the lower-cased input, first hit winning,
with default "analysis".  On the sample job string the review list (hit
"review"/"literature") wins even though the preparation list (hit "prepare")
also matches, and on an input with no hit the default "analysis" is returned. -/
theorem C8_deliverable_type_first_hit :
    determine_deliverable_type
        "Prepare a comprehensive literature review focusing on methodologies, datasets, and performance benchmarks"
      = "review" ∧
    containsSub (lower "Prepare a comprehensive literature review focusing on methodologies, datasets, and performance benchmarks") "prepare" = true ∧
    determine_deliverable_type "" = "analysis" := by
  refine ⟨by decide, by decide, by decide⟩

end PersonaAnalyzer

namespace RelevanceScorer

theorem sqrt_four : Real.sqrt 4 = 2 := by
  rw [show (4:ℝ) = 2^2 by norm_num, Real.sqrt_sq (by norm_num)]

/-- Counterexample to C2: on a body in which the single keyword "cat" occurs
four times, the code scores `min(1, 1/(sqrt 4 * sqrt 1)) = 1/2` (the keyword is
counted once, because it is merely tested for membership), while the claimed
occurrence-counting formula gives `min(1, 4/(sqrt 4 * sqrt 1)) = 1`. -/
theorem C2_keyword_score_counterexample :
    calculate_keyword_score ⟨"", "cat cat cat cat", 1, none⟩
        ⟨"", [], [], "intermediate", {"cat"}⟩ ⟨"", [], "analysis", ∅, []⟩ = 1/2 ∧
    keyword_score_occurrence_reading ⟨"", "cat cat cat cat", 1, none⟩
        ⟨"", [], [], "intermediate", {"cat"}⟩ ⟨"", [], "analysis", ∅, []⟩ = 1 ∧
    calculate_keyword_score ⟨"", "cat cat cat cat", 1, none⟩
        ⟨"", [], [], "intermediate", {"cat"}⟩ ⟨"", [], "analysis", ∅, []⟩ ≠
      keyword_score_occurrence_reading ⟨"", "cat cat cat cat", 1, none⟩
        ⟨"", [], [], "intermediate", {"cat"}⟩ ⟨"", [], "analysis", ∅, []⟩ := by
  have hcode : calculate_keyword_score ⟨"", "cat cat cat cat", 1, none⟩
      ⟨"", [], [], "intermediate", {"cat"}⟩ ⟨"", [], "analysis", ∅, []⟩ = 1/2 := by
    have hc : containsSub (lower "cat cat cat cat") "cat" = true := by decide
    have ht : containsSub (lower "") "cat" = false := by decide
    have hw : (pySplit (lower "cat cat cat cat")).length = 4 := by decide
    simp only [calculate_keyword_score, Finset.union_empty, Finset.filter_singleton, hc, ht, hw]
    norm_num
    rw [min_eq_left (by rw [sqrt_four]; norm_num), sqrt_four]
    norm_num
  have hspec : keyword_score_occurrence_reading ⟨"", "cat cat cat cat", 1, none⟩
      ⟨"", [], [], "intermediate", {"cat"}⟩ ⟨"", [], "analysis", ∅, []⟩ = 1 := by
    have hc : countOccs (lower "cat cat cat cat") "cat" = 4 := by decide
    have ht : countOccs (lower "") "cat" = 0 := by decide
    have hw : (pySplit (lower "cat cat cat cat")).length = 4 := by decide
    simp only [keyword_score_occurrence_reading, Finset.union_empty, Finset.sum_singleton,
      hc, ht, hw]
    norm_num
  refine ⟨hcode, hspec, ?_⟩
  rw [hcode, hspec]
  norm_num

/-- C2 as amended: for non-empty `K` and a body with at least one word, the
keyword component score equals
`min(1, (content_matches + 2*title_matches) / (sqrt(word_count) * sqrt(|K|)))`,
where `content_matches`/`title_matches` count the keywords of `K` occurring as
substrings of the lower-cased body/title — each keyword at most once, not once
per occurrence. -/
theorem C2_keyword_score_amended (sec : DocumentSection) (persona : PersonaProfile)
    (job : JobRequirements)
    (hK : persona.keywords ∪ job.priority_keywords ≠ ∅)
    (hw : (pySplit (lower sec.content)).length ≠ 0) :
    calculate_keyword_score sec persona job = keyword_score_presence_reading sec persona job := by
  simp only [calculate_keyword_score, keyword_score_presence_reading]
  rw [if_neg hK, if_neg hw, min_comm, div_div]
  congr 1
  push_cast
  ring

/-- Witness for the amended C2 on the one-keyword corpus. -/
theorem C2_keyword_score_amended_witness :
    ((⟨"", [], [], "intermediate", {"cat"}⟩ : PersonaProfile).keywords ∪
      (⟨"", [], "analysis", ∅, []⟩ : JobRequirements).priority_keywords ≠ ∅) ∧
    ((pySplit (lower (⟨"", "cat cat cat cat", 1, none⟩ : DocumentSection).content)).length ≠ 0) ∧
    calculate_keyword_score ⟨"", "cat cat cat cat", 1, none⟩
        ⟨"", [], [], "intermediate", {"cat"}⟩ ⟨"", [], "analysis", ∅, []⟩
      = keyword_score_presence_reading ⟨"", "cat cat cat cat", 1, none⟩
        ⟨"", [], [], "intermediate", {"cat"}⟩ ⟨"", [], "analysis", ∅, []⟩ :=
  ⟨by decide, by decide,
    C2_keyword_score_amended _ _ _ (by decide) (by decide)⟩

end RelevanceScorer

namespace RelevanceScorer

/-- C9: every retained sentence (at least one word) scores
`0.6*keyword_density + 0.2*length_score + 0.2*quality_score` with
`keyword_density = min(1, hits/word_count*2)`, `length_score` 1.0 for 5-30
words, 0.5 below 5, `max(0.1, 1.0-(words-30)*0.02)` above 30, and
`quality_score` 0.3 or 0; consequently every `SubSection`'s relevance score
lies in [0,1]. -/
theorem C9_sentence_score_formula_and_bounds :
    (∀ (sentence : String) (persona : PersonaProfile) (job : JobRequirements),
      0 < (pySplit sentence).length →
      score_sentence sentence persona job =
        0.6 * min 1 ((((persona.keywords ∪ job.priority_keywords).filter
            (fun kw => containsSub (lower sentence) kw)).card : ℝ) /
            ((pySplit sentence).length : ℝ) * 2) +
        0.2 * (if 5 ≤ (pySplit sentence).length ∧ (pySplit sentence).length ≤ 30 then (1:ℝ)
          else if (pySplit sentence).length < 5 then 0.5
          else max 0.1 (1 - (((pySplit sentence).length : ℝ) - 30) * 0.02)) +
        0.2 * (if ["result", "finding", "conclusion", "analysis", "method", "approach"].any
            (fun ind => containsSub (lower sentence) ind) then (0.3:ℝ) else 0) ∧
      0 ≤ score_sentence sentence persona job ∧ score_sentence sentence persona job ≤ 1) ∧
    (∀ (sections : List ScoredSection) (persona : PersonaProfile) (job : JobRequirements)
        (max_subsections : Nat),
      ∀ sub ∈ extract_subsections sections persona job max_subsections,
        0 ≤ sub.relevance_score ∧ sub.relevance_score ≤ 1) := by
  constructor
  · intro sentence persona job _
    refine ⟨?_, score_sentence_mem sentence persona job⟩
    simp only [score_sentence]
    rw [min_comm]
    ring
  · intro sections persona job m sub hsub
    simp only [extract_subsections] at hsub
    rw [List.mem_mergeSort, List.mem_flatMap] at hsub
    obtain ⟨ss, -, hsub2⟩ := hsub
    simp only [extract_section_subsections] at hsub2
    split_ifs at hsub2 with hne
    · simp at hsub2
    · rw [List.mem_map] at hsub2
      obtain ⟨p, hp, heq⟩ := hsub2
      have hp2 := List.mem_of_mem_take hp
      rw [List.mem_mergeSort, List.mem_map] at hp2
      obtain ⟨s, -, hps⟩ := hp2
      subst heq
      simp only
      rw [← hps]
      exact score_sentence_mem s persona job

/-- Witness for C9 on a concrete four-word sentence. -/
theorem C9_sentence_score_formula_and_bounds_witness :
    0 < (pySplit "the result is good").length ∧
    (0 ≤ score_sentence "the result is good" ⟨"", [], [], "intermediate", ∅⟩
        ⟨"", [], "analysis", ∅, []⟩ ∧
      score_sentence "the result is good" ⟨"", [], [], "intermediate", ∅⟩
        ⟨"", [], "analysis", ∅, []⟩ ≤ 1) :=
  ⟨by decide,
    (C9_sentence_score_formula_and_bounds.1 "the result is good"
      ⟨"", [], [], "intermediate", ∅⟩ ⟨"", [], "analysis", ∅, []⟩ (by decide)).2⟩

end RelevanceScorer

/- ---------------------------------------------------------------------------
List lemmas for the sentence-splitting filter (claim C4): fragments produced
by the splitter are infixes of the body, and stripping an infix never yields
more characters than stripping the whole body.
--------------------------------------------------------------------------- -/

theorem dropWhile_append_cons (p : Char → Bool) (a : List Char) (c : Char) (z : List Char)
    (hc : p c = false) : List.dropWhile p (a ++ c :: z) = List.dropWhile p a ++ c :: z := by
  induction a with
  | nil => simp [List.dropWhile_cons, hc]
  | cons x xs ih =>
    by_cases hx : p x <;> simp [List.dropWhile_cons, hx, ih]

theorem splitChars_ne_nil (p : Char → Bool) (l : List Char) : splitChars p l ≠ [] := by
  induction l with
  | nil => simp [splitChars]
  | cons c cs ih =>
    by_cases hc : p c
    · simp [splitChars, hc]
    · rcases hm : splitChars p cs with _ | ⟨t, ts⟩
      · exact absurd hm ih
      · simp [splitChars, hc, hm]

theorem splitChars_head_prefix (p : Char → Bool) :
    ∀ (l t : List Char) (ts : List (List Char)), splitChars p l = t :: ts → t <+: l := by
  intro l
  induction l with
  | nil =>
    intro t ts h
    simp [splitChars] at h
    simp [← h.1]
  | cons c cs ih =>
    intro t ts h
    by_cases hc : p c
    · simp [splitChars, hc] at h
      rw [h.1]
      exact List.nil_prefix
    · rcases hm : splitChars p cs with _ | ⟨t', ts'⟩
      · exact absurd hm (splitChars_ne_nil p cs)
      · simp [splitChars, hc, hm] at h
        rw [← h.1]
        exact List.cons_prefix_cons.mpr ⟨rfl, ih t' ts' hm⟩

theorem splitChars_mem_within (p : Char → Bool) :
    ∀ (l f : List Char), f ∈ splitChars p l → f <:+: l := by
  intro l
  induction l with
  | nil =>
    intro f hf
    simp [splitChars] at hf
    rw [hf]
  | cons c cs ih =>
    intro f hf
    by_cases hc : p c
    · simp [splitChars, hc] at hf
      rcases hf with rfl | hf
      · exact List.nil_infix
      · exact List.infix_cons (ih f hf)
    · rcases hm : splitChars p cs with _ | ⟨t', ts'⟩
      · exact absurd hm (splitChars_ne_nil p cs)
      · simp [splitChars, hc, hm] at hf
        rcases hf with rfl | hf
        · exact (List.cons_prefix_cons.mpr ⟨rfl, splitChars_head_prefix p cs t' ts' hm⟩).isInfix
        · exact List.infix_cons (ih f (hm ▸ List.mem_cons_of_mem t' hf))

theorem getLastD_mem {α : Type} : ∀ (l : List α) (d : α), l ≠ [] → l.getLastD d ∈ l := by
  intro l
  induction l with
  | nil => intro d h; exact absurd rfl h
  | cons x xs ih =>
    intro d h
    cases xs with
    | nil => simp
    | cons y ys =>
      rw [List.getLastD_cons]
      exact List.mem_cons_of_mem x (ih x (by simp))

theorem reSplitRuns_mem (p : Char → Bool) (s x : String) (hx : x ∈ reSplitRuns p s) :
    ∃ f ∈ splitChars p s.data, x = ⟨f⟩ := by
  unfold reSplitRuns at hx
  rcases hms : (splitChars p s.data).map (fun l => (⟨l⟩ : String)) with _ | ⟨t, rest⟩
  · rw [hms] at hx
    simp at hx
  · rcases rest with _ | ⟨r₁, rest'⟩
    · rw [hms] at hx
      simp only [List.mem_singleton] at hx
      have ht : t ∈ (splitChars p s.data).map (fun l => (⟨l⟩ : String)) := by
        rw [hms]; exact List.mem_singleton.mpr rfl
      rw [List.mem_map] at ht
      obtain ⟨f, hf, hft⟩ := ht
      exact ⟨f, hf, by rw [hx, ← hft]⟩
    · rw [hms] at hx
      simp only [List.mem_cons, List.mem_append, List.mem_filter, List.mem_singleton,
        List.not_mem_nil, or_false] at hx
      have hget : x ∈ t :: r₁ :: rest' → ∃ f ∈ splitChars p s.data, x = ⟨f⟩ := by
        intro hmem
        have : x ∈ (splitChars p s.data).map (fun l => (⟨l⟩ : String)) := by rw [hms]; exact hmem
        rw [List.mem_map] at this
        obtain ⟨f, hf, hft⟩ := this
        exact ⟨f, hf, hft.symm⟩
      rcases hx with rfl | ⟨hdl, -⟩ | rfl
      · exact hget (List.mem_cons_self _ _)
      · exact hget (List.mem_cons_of_mem t ((List.dropLast_sublist (r₁ :: rest')).mem hdl))
      · exact hget (List.mem_cons_of_mem t
          (getLastD_mem (r₁ :: rest') "" (by simp)))

theorem pyStrip_data_within (s : String) : (pyStrip s).data <:+: s.data := by
  have h1 : (pyStrip s).data
      = ((s.data.dropWhile Char.isWhitespace).reverse.dropWhile Char.isWhitespace).reverse := rfl
  rw [h1]
  have h2 : ((s.data.dropWhile Char.isWhitespace).reverse.dropWhile Char.isWhitespace).reverse
      <+: (s.data.dropWhile Char.isWhitespace).reverse.reverse :=
    List.reverse_prefix.mpr (List.dropWhile_suffix _)
  rw [List.reverse_reverse] at h2
  exact h2.isInfix.trans (List.dropWhile_suffix _).isInfix

theorem pyStrip_shape (s : String) (h : (pyStrip s).data ≠ []) :
    ∃ c r, (pyStrip s).data = c :: r ∧ c.isWhitespace = false := by
  have h1 : (pyStrip s).data
      = ((s.data.dropWhile Char.isWhitespace).reverse.dropWhile Char.isWhitespace).reverse := rfl
  rcases hd : s.data.dropWhile Char.isWhitespace with _ | ⟨c, d'⟩
  · exfalso
    apply h
    rw [h1, hd]
    rfl
  · have hc : c.isWhitespace = false := by
      have hne : s.data.dropWhile Char.isWhitespace ≠ [] := by rw [hd]; simp
      have := List.head_dropWhile_not Char.isWhitespace s.data hne
      have hhead : (s.data.dropWhile Char.isWhitespace).head hne = c := by
        have : (s.data.dropWhile Char.isWhitespace).head hne
            = (c :: d').head (by simp) := by congr 1
        rw [this]
        rfl
      rwa [hhead] at this
    refine ⟨c, ((d'.reverse.dropWhile Char.isWhitespace).reverse), ?_, hc⟩
    rw [h1, hd]
    rw [show (c :: d').reverse = d'.reverse ++ c :: [] by simp]
    rw [dropWhile_append_cons Char.isWhitespace d'.reverse c [] hc]
    simp

theorem pyStrip_reverse_shape (s : String) (h : (pyStrip s).data ≠ []) :
    ∃ e r, (pyStrip s).data.reverse = e :: r ∧ e.isWhitespace = false := by
  have h1 : (pyStrip s).data.reverse
      = (s.data.dropWhile Char.isWhitespace).reverse.dropWhile Char.isWhitespace := by
    show (((s.data.dropWhile Char.isWhitespace).reverse.dropWhile Char.isWhitespace).reverse).reverse = _
    rw [List.reverse_reverse]
  rcases hd : (s.data.dropWhile Char.isWhitespace).reverse.dropWhile Char.isWhitespace
      with _ | ⟨e, r⟩
  · exfalso
    apply h
    have : (pyStrip s).data.reverse = [] := by rw [h1, hd]
    simpa using congrArg List.reverse this
  · have hne : (s.data.dropWhile Char.isWhitespace).reverse.dropWhile Char.isWhitespace ≠ [] := by
      rw [hd]; simp
    have he := List.head_dropWhile_not Char.isWhitespace
      (s.data.dropWhile Char.isWhitespace).reverse hne
    have hhead : ((s.data.dropWhile Char.isWhitespace).reverse.dropWhile Char.isWhitespace).head hne
        = e := by
      have : ((s.data.dropWhile Char.isWhitespace).reverse.dropWhile Char.isWhitespace).head hne
          = (e :: r).head (by simp) := by congr 1
      rw [this]
      rfl
    rw [hhead] at he
    exact ⟨e, r, by rw [h1, hd], he⟩

theorem strip_infix {m l : List Char} (c e : Char) (m₁ m₂ : List Char)
    (hm : m = c :: m₁) (hrev : m.reverse = e :: m₂)
    (hc : c.isWhitespace = false) (he : e.isWhitespace = false)
    (hinf : m <:+: l) :
    m <:+: ((l.dropWhile Char.isWhitespace).reverse.dropWhile Char.isWhitespace).reverse := by
  obtain ⟨a, b, rfl⟩ := hinf
  have h1 : (a ++ m ++ b).dropWhile Char.isWhitespace
      = a.dropWhile Char.isWhitespace ++ m ++ b := by
    rw [hm]
    rw [show a ++ c :: m₁ ++ b = a ++ c :: (m₁ ++ b) by simp]
    rw [dropWhile_append_cons Char.isWhitespace a c (m₁ ++ b) hc]
    simp
  rw [h1]
  have h2 : (a.dropWhile Char.isWhitespace ++ m ++ b).reverse
      = b.reverse ++ e :: (m₂ ++ (a.dropWhile Char.isWhitespace).reverse) := by
    rw [List.reverse_append, List.reverse_append, hrev]
    simp
  rw [h2]
  rw [dropWhile_append_cons Char.isWhitespace b.reverse e
    (m₂ ++ (a.dropWhile Char.isWhitespace).reverse) he]
  have hm2 : m₂.reverse ++ [e] = m := by
    have h3 := congrArg List.reverse hrev
    rw [List.reverse_reverse] at h3
    simpa using h3.symm
  refine ⟨a.dropWhile Char.isWhitespace, (b.reverse.dropWhile Char.isWhitespace).reverse, ?_⟩
  rw [List.reverse_append]
  simp only [List.reverse_cons, List.reverse_append, List.reverse_reverse]
  rw [← hm2]
  simp

theorem pyStrip_length_mono_of_infix (frag l : List Char) (h : frag <:+: l) :
    (pyStrip ⟨frag⟩).data.length ≤ (pyStrip ⟨l⟩).data.length := by
  by_cases hm : (pyStrip (⟨frag⟩ : String)).data = []
  · rw [hm]
    simp
  · obtain ⟨c, r₁, hshape, hc⟩ := pyStrip_shape ⟨frag⟩ hm
    obtain ⟨e, r₂, hrshape, he⟩ := pyStrip_reverse_shape ⟨frag⟩ hm
    have hinf : (pyStrip (⟨frag⟩ : String)).data <:+: l :=
      (pyStrip_data_within ⟨frag⟩).trans h
    have := strip_infix c e r₁ r₂ hshape hrshape hc he hinf
    exact this.length_le

namespace RelevanceScorer

/-- Every fragment of the sentence split strips to at most as many characters
as the whole body strips to. -/
theorem reSplitRuns_strip_le (content x : String)
    (hx : x ∈ reSplitRuns isSentEnd content) :
    (pyStrip x).data.length ≤ (pyStrip content).data.length := by
  obtain ⟨f, hf, rfl⟩ := reSplitRuns_mem _ _ _ hx
  exact pyStrip_length_mono_of_infix f content.data
    (splitChars_mem_within isSentEnd content.data f hf)

/-- A body that strips to fewer than 20 characters retains no sentence. -/
theorem retained_sentences_nil (content : String)
    (h : (pyStrip content).data.length < 20) :
    retained_sentences content = [] := by
  unfold retained_sentences
  rw [List.map_eq_nil_iff, List.filter_eq_nil_iff]
  intro s hs
  have := reSplitRuns_strip_le content s hs
  simp only [decide_eq_true_eq]
  omega

/-- Counterexample to C4: a body that is one 20-character fragment.  The claim
says a fragment of exactly 20 characters after trimming is retained; the code
keeps only fragments with strictly more than 20 characters, so this fragment
is discarded and no SubSection is produced. -/
theorem C4_twenty_char_fragment_counterexample :
    (pyStrip "abcdefghij abcdefghi").data.length = 20 ∧
    reSplitRuns isSentEnd "abcdefghij abcdefghi" = ["abcdefghij abcdefghi"] ∧
    pyStrip "abcdefghij abcdefghi" ∉ retained_sentences "abcdefghij abcdefghi" ∧
    extract_section_subsections ⟨"doc", ⟨"Sec", "abcdefghij abcdefghi", 1, none⟩, 0, 0, 0, 0⟩
        ⟨"", [], [], "intermediate", ∅⟩ ⟨"", [], "analysis", ∅, []⟩ 5 = [] := by
  refine ⟨by decide, by decide, by decide, ?_⟩
  have hsent : retained_sentences "abcdefghij abcdefghi" = [] := by decide
  simp [extract_section_subsections, hsent]

/-- C4 as amended: a trimmed fragment is discarded iff it has at most 20
characters (so one of exactly 20 characters is discarded, retained means
strictly more than 20); and for a section whose whole body is shorter than 20
characters after trimming, no SubSection is produced. -/
theorem C4_fragment_filter_amended (ss : ScoredSection) (persona : PersonaProfile)
    (job : JobRequirements) (max_subsections : Nat) :
    ((pyStrip ss.«section».content).data.length < 20 →
      extract_section_subsections ss persona job max_subsections = []) ∧
    (∀ frag ∈ reSplitRuns isSentEnd ss.«section».content,
      (pyStrip frag ∈ retained_sentences ss.«section».content ↔
        20 < (pyStrip frag).data.length)) := by
  constructor
  · intro h
    have hs := retained_sentences_nil ss.«section».content h
    simp [extract_section_subsections, hs]
  · intro frag hfrag
    constructor
    · intro hmem
      unfold retained_sentences at hmem
      rw [List.mem_map] at hmem
      obtain ⟨s, hs, heq⟩ := hmem
      rw [List.mem_filter] at hs
      rw [← heq]
      simpa using hs.2
    · intro hlen
      unfold retained_sentences
      rw [List.mem_map]
      exact ⟨frag, List.mem_filter.mpr ⟨hfrag, by simpa using hlen⟩, rfl⟩

/-- Witness for the amended C4 on a short-bodied section. -/
theorem C4_fragment_filter_amended_witness :
    (pyStrip (⟨"doc", ⟨"Sec", "tiny body", 1, none⟩, 0, 0, 0, 0⟩ :
        ScoredSection).«section».content).data.length < 20 ∧
    extract_section_subsections ⟨"doc", ⟨"Sec", "tiny body", 1, none⟩, 0, 0, 0, 0⟩
        ⟨"", [], [], "intermediate", ∅⟩ ⟨"", [], "analysis", ∅, []⟩ 5 = [] :=
  ⟨by decide,
    (C4_fragment_filter_amended ⟨"doc", ⟨"Sec", "tiny body", 1, none⟩, 0, 0, 0, 0⟩
      ⟨"", [], [], "intermediate", ∅⟩ ⟨"", [], "analysis", ∅, []⟩ 5).1 (by decide)⟩

end RelevanceScorer

namespace PersonaAnalyzer


/-- C5: for every text input, `analyze_persona` and `analyze_job` return a
well-formed profile (totality of the embedding models "no exception"); when no
pattern matches — no role regex, no findall capture, no anchored goal match, no
skill/deliverable indicator, no domain keyword, no success trigger — every
field takes its documented default: role falls back to the first three
whitespace-delimited tokens or the whole trimmed string, skill level
"intermediate", domains/focus/needs empty, deliverable type "analysis",
success criteria the fixed three-item list, and the keyword sets degrade to
the tokenised text minus stop words (empty for empty input, as the witness
shows). -/
theorem C5_defaults (rx : RegexOracle) (text : String)
    (h_role : ∀ pattern ∈ role_patterns, rx.search pattern text = none)
    (h_findall : ∀ pattern ∈ domain_patterns ++ focus_patterns ++ need_patterns,
      rx.findall pattern text = [])
    (h_goal : rx.matchStart r"^([A-Z][a-z]+(?:\s+[a-z]+)*)" text = none)
    (h_skill : ∀ p ∈ skill_indicators, ∀ ind ∈ p.2, ¬ containsSub (lower text) ind = true)
    (h_deliv : ∀ p ∈ job_types, ∀ ind ∈ p.2, ¬ containsSub (lower text) ind = true)
    (h_domkw : ∀ p ∈ domain_keywords, ∀ kw ∈ p.2, ¬ containsSub (lower text) kw = true)
    (h_crit : ∀ w ∈ ["comprehensive", "methodology", "method", "performance", "benchmark",
      "result", "trend", "analysis", "compare"], ¬ containsSub (lower text) w = true) :
    (analyze_persona rx text).role =
      (if 2 ≤ (pySplit text).length then String.intercalate " " ((pySplit text).take 3)
       else pyStrip text) ∧
    (analyze_persona rx text).skill_level = "intermediate" ∧
    (analyze_persona rx text).expertise_domains = [] ∧
    (analyze_persona rx text).focus_areas = [] ∧
    (analyze_persona rx text).keywords = (alphaRuns3 (lower text)).toFinset \ persona_stop_words ∧
    (analyze_job rx text).primary_goal =
      pyStrip ⟨(splitChars (fun c => c = '.') text.data).headD []⟩ ∧
    (analyze_job rx text).information_needs = [] ∧
    (analyze_job rx text).deliverable_type = "analysis" ∧
    (analyze_job rx text).priority_keywords = (alphaRuns3 (lower text)).toFinset \ job_stop_words ∧
    (analyze_job rx text).success_criteria =
      ["Relevant content extraction", "Clear organization", "Actionable insights"] := by
  have hrole : extract_role rx text =
      (if 2 ≤ (pySplit text).length then String.intercalate " " ((pySplit text).take 3)
       else pyStrip text) := by
    unfold extract_role
    rw [List.findSome?_eq_none_iff.mpr h_role]
  have hskill : determine_skill_level text = "intermediate" := by
    simp only [determine_skill_level]
    rw [List.findSome?_eq_none_iff.mpr ?_]
    · rfl
    · intro p hp
      rw [if_neg]
      simp only [List.any_eq_true, not_exists]
      intro ind hind
      exact h_skill p hp ind hind.1 hind.2
  have hdomains : extract_expertise_domains rx text = [] := by
    simp only [extract_expertise_domains]
    have hbase : domain_keywords.filter (fun p =>
        p.2.any (fun kw => containsSub (lower text) kw)) = [] := by
      rw [List.filter_eq_nil_iff]
      intro p hp
      simp only [List.any_eq_true, not_exists]
      intro kw hkw
      exact h_domkw p hp kw hkw.1 hkw.2
    have hextra : domain_patterns.flatMap (fun pattern =>
        (rx.findall pattern text).map (fun m => underscore (lower m))) = [] := by
      rw [List.flatMap_eq_nil_iff]
      intro pattern hp
      rw [h_findall pattern (List.mem_append_left _ (List.mem_append_left _ hp))]
      rfl
    rw [hbase, hextra]
    rfl
  have hfocus : extract_focus_areas rx text = [] := by
    unfold extract_focus_areas
    rw [List.flatMap_eq_nil_iff]
    intro pattern hp
    rw [h_findall pattern (List.mem_append_left _ (List.mem_append_right _ hp))]
    rfl
  have hkeywords : generate_persona_keywords text [] =
      (alphaRuns3 (lower text)).toFinset \ persona_stop_words := by
    unfold generate_persona_keywords
    simp
  have hgoal : extract_primary_goal rx text =
      pyStrip ⟨(splitChars (fun c => c = '.') text.data).headD []⟩ := by
    unfold extract_primary_goal
    rw [h_goal]
  have hneeds : extract_information_needs rx text = [] := by
    unfold extract_information_needs
    rw [List.flatMap_eq_nil_iff]
    intro pattern hp
    rw [h_findall pattern (List.mem_append_right _ hp)]
    rfl
  have hdeliv : determine_deliverable_type text = "analysis" := by
    simp only [determine_deliverable_type]
    rw [List.findSome?_eq_none_iff.mpr ?_]
    · rfl
    · intro p hp
      rw [if_neg]
      simp only [List.any_eq_true, not_exists]
      intro ind hind
      exact h_deliv p hp ind hind.1 hind.2
  have hb1 : containsSub (lower text) "comprehensive" = false := by
    simpa using h_crit "comprehensive" (by simp)
  have hb2 : (["methodology", "method"].any (fun w => containsSub (lower text) w)) = false := by
    rw [List.any_eq_false]
    intro w hw
    fin_cases hw <;> exact h_crit _ (by simp)
  have hb3 : (["performance", "benchmark", "result"].any
      (fun w => containsSub (lower text) w)) = false := by
    rw [List.any_eq_false]
    intro w hw
    fin_cases hw <;> exact h_crit _ (by simp)
  have hb4 : (["trend", "analysis", "compare"].any
      (fun w => containsSub (lower text) w)) = false := by
    rw [List.any_eq_false]
    intro w hw
    fin_cases hw <;> exact h_crit _ (by simp)
  have hcrit : define_success_criteria text =
      ["Relevant content extraction", "Clear organization", "Actionable insights"] := by
    simp [define_success_criteria, hb1, hb2, hb3, hb4]
  refine ⟨?_, ?_, ?_, ?_, ?_, ?_, ?_, ?_, ?_, ?_⟩
  · show extract_role rx text = _
    exact hrole
  · show determine_skill_level text = _
    exact hskill
  · show extract_expertise_domains rx text = _
    exact hdomains
  · show extract_focus_areas rx text = _
    exact hfocus
  · show generate_persona_keywords text (extract_expertise_domains rx text) = _
    rw [hdomains, hkeywords]
  · show extract_primary_goal rx text = _
    exact hgoal
  · show extract_information_needs rx text = _
    exact hneeds
  · show determine_deliverable_type text = _
    exact hdeliv
  · show extract_priority_keywords text = _
    unfold extract_priority_keywords
    rfl
  · show define_success_criteria text = _
    exact hcrit

/-- Witness for C5: the no-match oracle on the empty string. -/
theorem C5_defaults_witness :
    (∀ pattern ∈ role_patterns, noMatchOracle.search pattern "" = none) ∧
    (∀ pattern ∈ domain_patterns ++ focus_patterns ++ need_patterns,
      noMatchOracle.findall pattern "" = []) ∧
    (noMatchOracle.matchStart r"^([A-Z][a-z]+(?:\s+[a-z]+)*)" "" = none) ∧
    (∀ p ∈ skill_indicators, ∀ ind ∈ p.2, ¬ containsSub (lower "") ind = true) ∧
    ((analyze_persona noMatchOracle "").role =
      (if 2 ≤ (pySplit "").length then String.intercalate " " ((pySplit "").take 3)
       else pyStrip "") ∧
    (analyze_persona noMatchOracle "").skill_level = "intermediate" ∧
    (analyze_persona noMatchOracle "").expertise_domains = [] ∧
    (analyze_persona noMatchOracle "").focus_areas = [] ∧
    (analyze_persona noMatchOracle "").keywords =
      (alphaRuns3 (lower "")).toFinset \ persona_stop_words ∧
    (analyze_job noMatchOracle "").primary_goal =
      pyStrip ⟨(splitChars (fun c => c = '.') "".data).headD []⟩ ∧
    (analyze_job noMatchOracle "").information_needs = [] ∧
    (analyze_job noMatchOracle "").deliverable_type = "analysis" ∧
    (analyze_job noMatchOracle "").priority_keywords =
      (alphaRuns3 (lower "")).toFinset \ job_stop_words ∧
    (analyze_job noMatchOracle "").success_criteria =
      ["Relevant content extraction", "Clear organization", "Actionable insights"]) :=
  ⟨by decide, by decide, by decide, by decide,
    C5_defaults noMatchOracle "" (by decide) (by decide) (by decide) (by decide) (by decide)
      (by decide) (by decide)⟩

end PersonaAnalyzer
